import Mathlib

/-!
Verification development for the request-correlated relay and
credential-rotation engine of `unified-server.js`.

The definitions below are a shallow embedding of the JavaScript source:
* the status-code correction regexes of
  `RequestHandler._parseAndCorrectErrorDetails` (line 510) and
  `RequestHandler._handleRequestFailureAndSwitch` (line 534) are modelled
  as executable scanners over character lists;
* the rotation state machine (`_getNextAuthIndex`, `_switchToNextAuth`,
  the failure counter of `_handleRequestFailureAndSwitch`) is modelled by
  explicit state passing, with the browser-activation collaborator
  abstracted as a boolean-valued oracle;
* the per-request mailbox (`MessageQueue`) is modelled as a record of
  backlog, parked waiters and a closed flag;
* the two response orchestrators (`_handlePseudoStreamResponse`,
  `_handleRealStreamResponse`) are modelled as interpreters over a script
  of dequeue outcomes, emitting the list of frames forwarded to the peer
  and the trace of writes made to the HTTP response object.

JavaScript `undefined` for the `status` / `message` / `data` fields is
modelled with `Option`; JS truthiness (`status || 500`, `if (data)`) is
translated explicitly.
-/

/-! ## Character-level model of the two status-extraction regexes

`_parseAndCorrectErrorDetails` uses `/(?:HTTP|status code)\s+(\d{3})/`.
`_handleRequestFailureAndSwitch` uses the extended
`/(?:HTTP|status code)\s*(\d{3})|"code"\s*:\s*(\d{3})/`.
JavaScript `String.prototype.match` returns the leftmost match, trying
the start positions from left to right.  The two alternatives of each
regex begin with distinct characters, so per-position alternation is a
plain `orElse`. -/

/-- JS `\s`: the ECMAScript WhiteSpace and LineTerminator characters. -/
def isJsSpace (c : Char) : Bool :=
  let n := c.toNat
  n == 0x20 || n == 0x09 || n == 0x0a || n == 0x0b || n == 0x0c || n == 0x0d ||
  n == 0xa0 || n == 0x1680 || (0x2000 ≤ n && n ≤ 0x200a) ||
  n == 0x2028 || n == 0x2029 || n == 0x202f || n == 0x205f || n == 0x3000 || n == 0xfeff

/-- Match a literal character sequence, returning the remainder. -/
def stripLit : List Char → List Char → Option (List Char)
  | [], cs => some cs
  | _ :: _, [] => none
  | p :: ps, c :: cs => if c == p then stripLit ps cs else none

/-- Greedily skip `\s*`. -/
def skipWs : List Char → List Char
  | [] => []
  | c :: cs => if isJsSpace c then skipWs cs else c :: cs

/-- Pattern `\s+` followed by the rest: at least one whitespace character, then
the maximal whitespace run is consumed (a digit can never be whitespace,
so greedy consumption is exact). -/
def skipWs1 : List Char → Option (List Char)
  | [] => none
  | c :: cs => if isJsSpace c then some (skipWs cs) else none

/-- Capture `(\d{3})`: three ASCII digits (a fourth digit may follow; the capture
still takes exactly the first three, as in the source regexes). -/
def read3 : List Char → Option Nat
  | a :: b :: c :: _ =>
    if a.isDigit && b.isDigit && c.isDigit then
      some ((a.toNat - '0'.toNat) * 100 + (b.toNat - '0'.toNat) * 10 + (c.toNat - '0'.toNat))
    else none
  | _ => none

/-- One attempt of `/(?:HTTP|status code)\s+(\d{3})/` anchored at the
current position. -/
def weakMatchAt (cs : List Char) : Option Nat :=
  match stripLit "HTTP".data cs <|> stripLit "status code".data cs with
  | some rest =>
    match skipWs1 rest with
    | some rest2 => read3 rest2
    | none => none
  | none => none

/-- Leftmost match of the `_parseAndCorrectErrorDetails` regex. -/
def weakScan : List Char → Option Nat
  | [] => none
  | c :: cs =>
    match weakMatchAt (c :: cs) with
    | some n => some n
    | none => weakScan cs

/-- First alternative `(?:HTTP|status code)\s*(\d{3})` of the extended
regex, anchored at the current position. -/
def strongBranch1 (cs : List Char) : Option Nat :=
  match stripLit "HTTP".data cs <|> stripLit "status code".data cs with
  | some rest => read3 (skipWs rest)
  | none => none

/-- Second alternative `"code"\s*:\s*(\d{3})` of the extended regex,
anchored at the current position (the quotes are part of the pattern). -/
def codeFieldAt (cs : List Char) : Option Nat :=
  match stripLit "\"code\"".data cs with
  | some r1 =>
    match skipWs r1 with
    | ':' :: r2 => read3 (skipWs r2)
    | _ => none
  | none => none

/-- One attempt of the extended regex anchored at the current position. -/
def strongMatchAt (cs : List Char) : Option Nat :=
  match strongBranch1 cs with
  | some n => some n
  | none => codeFieldAt cs

/-- Leftmost match of the `_handleRequestFailureAndSwitch` regex
(`match[1] || match[2]`: whichever alternative matched supplies the
digits). -/
def strongScan : List Char → Option Nat
  | [] => none
  | c :: cs =>
    match strongMatchAt (c :: cs) with
    | some n => some n
    | none => strongScan cs

/-! ## Error details and the two correction passes -/

/-- The `{status, message}` pair of an inbound `error` frame.  Either
field may be absent (JS `undefined`). -/
structure ErrorDetails where
  status : Option Int
  message : Option String
deriving DecidableEq

/-- Function `RequestHandler._parseAndCorrectErrorDetails` (lines 502-527): scan
the message with the narrow regex and, when the parsed code lies in
400-599, replace the reported status.  (The source skips the assignment
when the parsed code already equals the reported status, which yields the
same value.) -/
def parseAndCorrectErrorDetails (e : ErrorDetails) : ErrorDetails :=
  match e.message with
  | some m =>
    match weakScan m.data with
    | some n => if 400 ≤ n ∧ n ≤ 599 then { e with status := some (n : Int) } else e
    | none => e
  | none => e

/-- The in-place correction at the top of
`RequestHandler._handleRequestFailureAndSwitch` (lines 531-548), using
the extended regex. -/
def correctErrorDetailsStrong (e : ErrorDetails) : ErrorDetails :=
  match e.message with
  | some m =>
    match strongScan m.data with
    | some n => if 400 ≤ n ∧ n ≤ 599 then { e with status := some (n : Int) } else e
    | none => e
  | none => e

/-- The status the rotation / failure-counter logic acts on for an
inbound error frame: the orchestrators first apply
`_parseAndCorrectErrorDetails` to the frame (pseudo-stream line 683,
real-stream line 775) and pass the result to
`_handleRequestFailureAndSwitch`, which re-corrects it with the extended
regex before consulting `immediateSwitchStatusCodes` and the counter. -/
def rotationDecisionStatus (e : ErrorDetails) : Option Int :=
  (correctErrorDetailsStrong (parseAndCorrectErrorDetails e)).status

/-- The status used for the terminal client-visible response: both
orchestrators compute `finalError` by applying
`_parseAndCorrectErrorDetails` to the original terminal frame
(pseudo-stream line 705, real-stream line 790). -/
def clientVisibleStatus (e : ErrorDetails) : Option Int :=
  (parseAndCorrectErrorDetails e).status

/-! ## Configuration and rotation state machine -/

/-- The configuration fields consumed by the relay core
(`_loadConfiguration`, lines 856-864; defaults `failureThreshold = 0`,
`maxRetries = 3`, `immediateSwitchStatusCodes = []`). -/
structure Config where
  maxRetries : Nat
  retryDelay : Nat
  failureThreshold : Nat
  immediateSwitchStatusCodes : List Int

/-- The mutable state of `RequestHandler` relevant to rotation:
`failureCount`, the `isAuthSwitching` guard, and the active credential
index (held by `browserManager.currentAuthIndex`). -/
structure HandlerState where
  failureCount : Nat
  isAuthSwitching : Bool
  currentAuthIndex : Nat
deriving DecidableEq

/-- JS `Array.prototype.indexOf`: index of the first occurrence, `none`
for `-1`. -/
def jsIndexOf : List Nat → Nat → Option Nat
  | [], _ => none
  | a :: t, x => if a = x then some 0 else (jsIndexOf t x).map (· + 1)

/-- Function `RequestHandler._getNextAuthIndex` (lines 440-457): cyclic successor
of the active index within the available indices; `none` models the JS
`null` returned when no index is available. -/
def getNextAuthIndex (available : List Nat) (current : Nat) : Option Nat :=
  match available with
  | [] => none
  | a :: rest =>
    if rest.length = 0 then some a
    else
      match jsIndexOf (a :: rest) current with
      | none => some a
      | some i => (a :: rest).get? ((i + 1) % (a :: rest).length)

/-- Result of one completed `_switchToNextAuth` call. -/
inductive SwitchOutcome
  | skipped            -- `isAuthSwitching` was already true: logged no-op
  | noAuthErr          -- threw "No available authentication sources to switch to."
  | success (idx : Nat)  -- `browserManager.switchAccount` succeeded
  | activationError    -- `switchAccount` threw; the error is re-thrown
deriving DecidableEq

/-- What one invocation of `_switchToNextAuth` does before it suspends on
`await browserManager.switchAccount` (lines 459-474): observe the guard,
set it, and compute the target index.  Everything up to the `await` is
synchronous, so this prefix is atomic in the event loop. -/
inductive RotateBegin
  | skipped
  | noAuth
  | activating (next : Nat)
deriving DecidableEq

def rotateBegin (available : List Nat) (s : HandlerState) : HandlerState × RotateBegin :=
  if s.isAuthSwitching then (s, .skipped)
  else
    match getNextAuthIndex available s.currentAuthIndex with
    | none => ({ s with isAuthSwitching := false }, .noAuth)
    | some n => ({ s with isAuthSwitching := true }, .activating n)

/-- The continuation of `_switchToNextAuth` after `switchAccount`
resolves or rejects (lines 484-498): on success set the active index and
reset the counter; in both cases the `finally` clears `isAuthSwitching`.
The activation collaborator is abstracted as the boolean `ok`. -/
def rotateComplete (n : Nat) (ok : Bool) (s : HandlerState) : HandlerState × SwitchOutcome :=
  if ok then
    ({ s with currentAuthIndex := n, failureCount := 0, isAuthSwitching := false }, .success n)
  else
    ({ s with isAuthSwitching := false }, .activationError)

/-- A full, uninterleaved `_switchToNextAuth` call. -/
def switchToNextAuth (available : List Nat) (ok : Nat → Bool) (s : HandlerState) :
    HandlerState × SwitchOutcome :=
  match rotateBegin available s with
  | (s', .skipped) => (s', .skipped)
  | (s', .noAuth) => (s', .noAuthErr)
  | (s', .activating n) => rotateComplete n (ok n) s'

/-- Two overlapping `_switchToNextAuth` calls: the second is invoked
while the first is suspended on `switchAccount` (the only suspension
point).  Returns the number of activation calls made to the collaborator
and the final state. -/
def concurrentRotationActivations (available : List Nat) (ok : Nat → Bool)
    (s : HandlerState) : Nat × HandlerState :=
  let r1 := rotateBegin available s
  let r2 := rotateBegin available r1.1
  let a1 : Nat := match r1.2 with | .activating _ => 1 | _ => 0
  let a2 : Nat := match r2.2 with | .activating _ => 1 | _ => 0
  let final : HandlerState :=
    match r1.2 with
    | .activating n => (rotateComplete n (ok n) r2.1).1
    | _ => r2.1
  (a1 + a2, final)

/-! ## Client-visible writes and the failure handler -/

/-- JS truthiness of `status` in `res.status(status || 500)`
(`_sendErrorResponse`, line 835). -/
def statusOr500 : Option Int → Int
  | some n => if n = 0 then 500 else n
  | none => 500

/-- String interpolation of a possibly-undefined value. -/
def msgStr : Option String → String
  | some s => s
  | none => "undefined"

/-- String interpolation of a possibly-undefined status. -/
def optStatusText : Option Int → String
  | some n => toString n
  | none => "undefined"

/-- Check `immediateSwitchStatusCodes.includes(status)`: strict equality, so an
undefined status is never a member. -/
def optStatusIn (codes : List Int) : Option Int → Bool
  | some n => codes.contains n
  | none => false

/-- One write made to the outbound HTTP response object, labelled by its
call site in the source.  Periodic keep-alive placeholder writes (line
672) are timer-driven and outside this event model. -/
inductive ClientWrite
  | sseHeaders                                -- pseudo-stream upfront 200 + event-stream headers (line 666)
  | respHeaders (status : Int)                -- real-stream `_setResponseHeaders` (line 816)
  | infoChunk (message : String)              -- `_sendErrorChunkToClient` during retries / rotation
  | finalErrorChunk (status : Option Int) (message : String)  -- terminal in-band error (line 710)
  | catchChunk (message : String)             -- in-band error from the catch block (line 757)
  | dataEvent (d : String)                    -- pseudo-stream `data: ...` payload event (line 729)
  | doneEvent                                 -- pseudo-stream `data: [DONE]` (line 731)
  | bodyWrite (s : String)                    -- real-stream raw chunk write (line 805)
  | jsonResponse (raw : String)               -- `res.status(200).json(...)` (line 740)
  | errorResponse (status : Int) (message : String) -- `_sendErrorResponse` (line 834)
  | endStream                                 -- `res.end()`
deriving DecidableEq

/-- The chunks `_handleRequestFailureAndSwitch` sends after a switch
attempt: the success message is also sent when the switch was skipped
because one was already running (no exception is thrown in that case). -/
def switchChunks (hasRes : Bool) (idxAfter : Nat) (r : SwitchOutcome) : List ClientWrite :=
  if hasRes then
    match r with
    | .skipped => [.infoChunk ("已切换到账号索引 " ++ toString idxAfter ++ "，请重试")]
    | .success _ => [.infoChunk ("已切换到账号索引 " ++ toString idxAfter ++ "，请重试")]
    | .noAuthErr => [.infoChunk "切换账号失败: No available authentication sources to switch to."]
    | .activationError => [.infoChunk "切换账号失败: switchAccount error"]
  else []

/-- Function `RequestHandler._handleRequestFailureAndSwitch` (lines 529-585),
given the already weak-corrected error details the orchestrators pass in.
Returns the new state, the outcome of the `_switchToNextAuth` call when
one was made, and the chunks written to `res` (`hasRes = false` models
the `null` argument used by the real-stream path and non-stream
pseudo path). -/
def handleRequestFailureAndSwitch (cfg : Config) (available : List Nat) (ok : Nat → Bool)
    (errorDetails : ErrorDetails) (hasRes : Bool) (s : HandlerState) :
    HandlerState × Option SwitchOutcome × List ClientWrite :=
  let corrected := correctErrorDetailsStrong errorDetails
  if optStatusIn cfg.immediateSwitchStatusCodes corrected.status then
    let w1 : List ClientWrite :=
      if hasRes then [.infoChunk ("收到状态码 " ++ optStatusText corrected.status ++ "，正在尝试切换账号...")]
      else []
    let sr := switchToNextAuth available ok s
    (sr.1, some sr.2, w1 ++ switchChunks hasRes sr.1.currentAuthIndex sr.2)
  else if 0 < cfg.failureThreshold then
    let s1 := { s with failureCount := s.failureCount + 1 }
    if cfg.failureThreshold ≤ s1.failureCount then
      let w1 : List ClientWrite :=
        if hasRes then [.infoChunk ("连续失败" ++ toString s1.failureCount ++ "次，正在尝试切换账号...")]
        else []
      let sr := switchToNextAuth available ok s1
      (sr.1, some sr.2, w1 ++ switchChunks hasRes sr.1.currentAuthIndex sr.2)
    else (s1, none, [])
  else (s, none, [])

/-! ## Inbound event frames and the per-request mailbox -/

/-- An internal frame as enqueued by `ConnectionRegistry._routeMessage`
(lines 393-405): `response_headers`, `chunk` and `error` frames are
enqueued as-is, `stream_close` becomes the `STREAM_END` sentinel.
The `headers` object of a `response_headers` frame is not needed by any
claim and is omitted. -/
inductive Msg
  | responseHeaders (status : Option Int)
  | chunk (data : String)
  | error (status : Option Int) (message : Option String)
  | streamEnd
deriving DecidableEq

/-- The `status` property of a frame (`undefined` on frames without
one). -/
def Msg.statusField : Msg → Option Int
  | .responseHeaders st => st
  | .error st _ => st
  | _ => none

/-- Test `message.event_type === 'error'`. -/
def Msg.isErrorEvent : Msg → Bool
  | .error _ _ => true
  | _ => false

/-- Test `event_type === 'error' && status >= 400 && status <= 599` (lines
682/772); an undefined status fails both comparisons. -/
def Msg.isRetriableError (m : Msg) : Bool :=
  m.isErrorEvent &&
    (match m.statusField with
     | some n => decide (400 ≤ n) && decide (n ≤ 599)
     | none => false)

/-- Test `message.type === 'STREAM_END'`. -/
def Msg.isStreamEnd : Msg → Bool
  | .streamEnd => true
  | _ => false

/-- JS truthiness of `message.data`: only a non-empty string on a
`chunk` frame is truthy. -/
def Msg.truthyData : Msg → Option String
  | .chunk d => if d = "" then none else some d
  | _ => none

/-- Read a frame as `{status, message}` error details. -/
def Msg.toErrorDetails : Msg → ErrorDetails
  | .error st msg => ⟨st, msg⟩
  | m => ⟨m.statusField, none⟩

/-- Class `MessageQueue` (lines 304-351).  Parked waiters are identified by the
opaque token handed to `dequeue`; `waitingResolvers` keeps them in FIFO
order.  The pending-timeout bookkeeping (`timeoutId`) only matters for
real time and is not part of the state. -/
structure MessageQueue (α : Type) where
  messages : List α
  waitingResolvers : List Nat
  closed : Bool
deriving DecidableEq

def MessageQueue.empty {α} : MessageQueue α := ⟨[], [], false⟩

/-- Observable effect of `enqueue`. -/
inductive EnqueueEffect (α : Type)
  | dropped                     -- queue closed: silent no-op (line 313)
  | delivered (w : Nat) (m : α) -- resolved the first parked waiter (lines 314-316)
  | backlogged                  -- appended to `messages` (line 318)
deriving DecidableEq

/-- Method `MessageQueue.enqueue` (lines 312-320). -/
def MessageQueue.enqueue {α} (q : MessageQueue α) (m : α) :
    MessageQueue α × EnqueueEffect α :=
  if q.closed then (q, .dropped)
  else
    match q.waitingResolvers with
    | w :: rest => ({ q with waitingResolvers := rest }, .delivered w m)
    | [] => ({ q with messages := q.messages ++ [m] }, .backlogged)

/-- Synchronous outcome of a `dequeue` call. -/
inductive DequeueRes (α : Type)
  | closedErr        -- throws `Queue is closed` (line 323)
  | value (m : α)    -- immediate resolution with the oldest frame (line 327)
  | parked (w : Nat) -- caller parked until a frame, timeout, or close
deriving DecidableEq

/-- The synchronous part of `MessageQueue.dequeue` (lines 321-341); `w`
is the token identifying the caller if it parks. -/
def MessageQueue.dequeue {α} (q : MessageQueue α) (w : Nat) :
    MessageQueue α × DequeueRes α :=
  if q.closed then (q, .closedErr)
  else
    match q.messages with
    | m :: rest => ({ q with messages := rest }, .value m)
    | [] => ({ q with waitingResolvers := q.waitingResolvers ++ [w] }, .parked w)

/-- Method `MessageQueue.close` (lines 342-350): returns the closed queue and
the waiters rejected with `Queue closed`. -/
def MessageQueue.close {α} (q : MessageQueue α) : MessageQueue α × List Nat :=
  ({ messages := [], waitingResolvers := [], closed := true }, q.waitingResolvers)

/-- Enqueue a whole list in order. -/
def enqueueAll {α} (q : MessageQueue α) (ms : List α) : MessageQueue α :=
  ms.foldl (fun q m => (q.enqueue m).1) q

/-- Dequeue `n` times, collecting the immediately returned frames; stops
early if a dequeue does not resolve synchronously. -/
def drainN {α} : Nat → MessageQueue α → List α
  | 0, _ => []
  | n + 1, q =>
    match q.dequeue 0 with
    | (q', .value m) => m :: drainN n q'
    | _ => []

/-! ## The two response orchestrators

A request's interaction with its mailbox is modelled by a script of
dequeue outcomes: each `dequeue` call consumes the next entry, which is
either a routed frame or a timeout rejection.  An exhausted script
behaves like a timeout (no further frame ever arrives).  The timer-driven
keep-alive writes and the `retryDelay` sleeps are real-time effects with
no influence on the event-level control flow and are not part of the
model. -/

/-- One relay frame sent to the peer.  `_buildProxyRequest` (lines
609-618) constructs it once per inbound request, so every retry forwards
the identical frame; only the correlation id is needed by the claims. -/
structure RelayFrame where
  requestId : String
deriving DecidableEq

/-- Outcome of one `dequeue` call as seen by the orchestrator. -/
inductive QEvent
  | msg (m : Msg)
  | timeout
deriving DecidableEq

/-- How the retry loop ended. -/
inductive PLoopEnd
  | got (last : Msg) (failed : Bool) -- loop exited with `lastMessage` and `requestFailed`
  | timedOut                         -- a `dequeue` rejected with `Queue timeout`
  | noAttempt                        -- `maxRetries = 0`: the loop body never ran
deriving DecidableEq

/-- Exceptions that can escape the retry phase. -/
inductive ThrownKind
  | queueTimeout     -- `Queue timeout` from `MessageQueue.dequeue`
  | undefinedHeader  -- TypeError reading `.event_type` of an undefined `lastMessage`
deriving DecidableEq

/-- Text of `error.message` for each exception kind (the TypeError text is
engine-dependent; it contains no `超时` substring either way). -/
def thrownMessage : ThrownKind → String
  | .queueTimeout => "Queue timeout"
  | .undefinedHeader => "Cannot read properties of undefined"

/-- JS `String.prototype.includes`. -/
def charsInclude (needle : List Char) : List Char → Bool
  | [] => needle.isEmpty
  | c :: cs => (stripLit needle (c :: cs)).isSome || charsInclude needle cs

def strIncludes (needle hay : String) : Bool :=
  charsInclude needle.data hay.data

/-- Function `_handleRequestError` with headers not yet sent (lines 829-831):
504 for messages containing `超时`, else 500. -/
def handleRequestErrorStatus (emsg : String) : Int :=
  if strIncludes "超时" emsg then 504 else 500

/-- The per-attempt error notice sent to a streaming client
(pseudo-stream line 686; `retryDelay` is shown in seconds in the
source, the exact text is irrelevant to the claims). -/
def attemptErrorText (st : Option Int) (willRetry : Bool) (retryDelay : Nat) : String :=
  "收到 " ++ optStatusText st ++ " 错误。" ++
    (if willRetry then "将在 " ++ toString retryDelay ++ "ms后重试..." else "已达到最大重试次数。")

/-- Collected result of an orchestrator run. -/
structure RelayOutcome where
  state : HandlerState      -- final `RequestHandler` rotation state
  sent : List RelayFrame    -- frames forwarded to the peer, in order
  writes : List ClientWrite -- trace of writes to the HTTP response
  rest : List QEvent        -- unconsumed part of the mailbox script
deriving DecidableEq

/-- The retry loop of `_handlePseudoStreamResponse` (lines 677-701).
`fuel` is the number of attempts still allowed (`maxRetries - attempt +
1`), so `0 < fuel` after decrementing is `attempt < maxRetries`. -/
def pseudoRetryLoop (cfg : Config) (available : List Nat) (ok : Nat → Bool)
    (frame : RelayFrame) (isStream : Bool) :
    Nat → HandlerState → List QEvent → List RelayFrame → List ClientWrite →
    HandlerState × List QEvent × List RelayFrame × List ClientWrite × PLoopEnd
  | 0, s, sc, sent, ws => (s, sc, sent, ws, .noAttempt)
  | fuel + 1, s, sc, sent, ws =>
    let sent' := sent ++ [frame]
    match sc with
    | [] => (s, [], sent', ws, .timedOut)
    | .timeout :: rest => (s, rest, sent', ws, .timedOut)
    | .msg m :: rest =>
      if m.isRetriableError then
        let corrected := parseAndCorrectErrorDetails m.toErrorDetails
        let fr := handleRequestFailureAndSwitch cfg available ok corrected isStream s
        let ws1 := ws ++ fr.2.2 ++
          (if isStream then [ClientWrite.infoChunk (attemptErrorText corrected.status (0 < fuel) cfg.retryDelay)] else [])
        if 0 < fuel then
          pseudoRetryLoop cfg available ok frame isStream fuel fr.1 rest sent' ws1
        else (fr.1, rest, sent', ws1, .got m true)
      else (s, rest, sent', ws, .got m false)

/-- Writes performed by the catch block of `_handlePseudoStreamResponse`
(lines 751-758) plus the `finally` (lines 759-763): with headers already
sent (stream request) an in-band chunk followed by `res.end()`; otherwise
a full error response via `_handleRequestError`, which itself ends the
response. -/
def pseudoCatchWrites (isStream : Bool) (k : ThrownKind) : List ClientWrite :=
  if isStream then
    [.catchChunk ("处理失败: " ++ thrownMessage k), .endStream]
  else
    [.errorResponse (handleRequestErrorStatus (thrownMessage k)) ("代理错误: " ++ thrownMessage k)]

/-- Function `RequestHandler._handlePseudoStreamResponse` (lines 655-764).
`isStream` is `req.path.includes(':stream')`; `jsonOk` abstracts
`JSON.parse` succeeding on a payload. -/
def handlePseudoStreamResponse (cfg : Config) (available : List Nat) (ok : Nat → Bool)
    (frame : RelayFrame) (isStream : Bool) (jsonOk : String → Bool)
    (s : HandlerState) (sc : List QEvent) : RelayOutcome :=
  let ws0 : List ClientWrite := if isStream then [.sseHeaders] else []
  match pseudoRetryLoop cfg available ok frame isStream cfg.maxRetries s sc [] ws0 with
  | (s1, sc1, sent, ws1, .timedOut) =>
    ⟨s1, sent, ws1 ++ pseudoCatchWrites isStream .queueTimeout, sc1⟩
  | (s1, sc1, sent, ws1, .noAttempt) =>
    ⟨s1, sent, ws1 ++ pseudoCatchWrites isStream .undefinedHeader, sc1⟩
  | (s1, sc1, sent, ws1, .got last failed) =>
    if last.isErrorEvent || failed then
      let finalError := parseAndCorrectErrorDetails last.toErrorDetails
      if isStream then
        ⟨s1, sent,
          ws1 ++ [.finalErrorChunk finalError.status (msgStr finalError.message), .endStream], sc1⟩
      else
        ⟨s1, sent,
          ws1 ++ [.errorResponse (statusOr500 finalError.status)
                    ("请求失败: " ++ msgStr finalError.message)], sc1⟩
    else
      let s2 := { s1 with failureCount := 0 }
      match sc1 with
      | [] => ⟨s2, sent, ws1 ++ pseudoCatchWrites isStream .queueTimeout, []⟩
      | .timeout :: sc2 => ⟨s2, sent, ws1 ++ pseudoCatchWrites isStream .queueTimeout, sc2⟩
      | .msg dataM :: sc2 =>
        match sc2 with
        | [] => ⟨s2, sent, ws1 ++ pseudoCatchWrites isStream .queueTimeout, []⟩
        | .timeout :: sc3 => ⟨s2, sent, ws1 ++ pseudoCatchWrites isStream .queueTimeout, sc3⟩
        | .msg _endM :: sc3 =>
          -- a non-`STREAM_END` end frame only logs a warning (line 723)
          if isStream then
            let dws := match dataM.truthyData with
              | some d => [ClientWrite.dataEvent d]
              | none => []
            ⟨s2, sent, ws1 ++ dws ++ [.doneEvent, .endStream], sc3⟩
          else
            match dataM.truthyData with
            | some d =>
              if jsonOk d then ⟨s2, sent, ws1 ++ [.jsonResponse d], sc3⟩
              else ⟨s2, sent, ws1 ++ [.errorResponse 500 "代理内部错误：无法解析来自后端的响应。"], sc3⟩
            | none =>
              ⟨s2, sent, ws1 ++ [.errorResponse 500 "代理内部错误：后端未返回有效数据。"], sc3⟩

/-- The retry loop of `_handleRealStreamResponse` (lines 768-787); it
never writes to `res` during retries (`_handleRequestFailureAndSwitch`
receives `null`, line 776). -/
def realRetryLoop (cfg : Config) (available : List Nat) (ok : Nat → Bool) (frame : RelayFrame) :
    Nat → HandlerState → List QEvent → List RelayFrame →
    HandlerState × List QEvent × List RelayFrame × PLoopEnd
  | 0, s, sc, sent => (s, sc, sent, .noAttempt)
  | fuel + 1, s, sc, sent =>
    let sent' := sent ++ [frame]
    match sc with
    | [] => (s, [], sent', .timedOut)
    | .timeout :: rest => (s, rest, sent', .timedOut)
    | .msg m :: rest =>
      if m.isRetriableError then
        let corrected := parseAndCorrectErrorDetails m.toErrorDetails
        let fr := handleRequestFailureAndSwitch cfg available ok corrected false s
        if 0 < fuel then realRetryLoop cfg available ok frame fuel fr.1 rest sent'
        else (fr.1, rest, sent', .got m true)
      else (s, rest, sent', .got m false)

/-- The chunk-read loop of `_handleRealStreamResponse` (lines 801-809):
each frame's truthy `data` is written through; `STREAM_END` stops the
loop; a `Queue timeout` rejection of the 30-second dequeue is caught and
treated as a normal end of stream. -/
def realChunkLoop : List QEvent → List ClientWrite × List QEvent
  | [] => ([], [])
  | .timeout :: rest => ([], rest)
  | .msg m :: rest =>
    if m.isStreamEnd then ([], rest)
    else
      match m.truthyData with
      | some d =>
        let r := realChunkLoop rest
        (ClientWrite.bodyWrite d :: r.1, r.2)
      | none => realChunkLoop rest

/-- Call `res.status(headerMessage.status || 200)` in `_setResponseHeaders`
(line 817). -/
def statusOr200 : Option Int → Int
  | some n => if n = 0 then 200 else n
  | none => 200

/-- Function `RequestHandler._handleRealStreamResponse` (lines 766-814).  The
second component records an exception escaping to `processRequest` (a
timeout while waiting for a first/attempt frame is NOT caught there,
unlike in the chunk loop). -/
def handleRealStreamResponse (cfg : Config) (available : List Nat) (ok : Nat → Bool)
    (frame : RelayFrame) (s : HandlerState) (sc : List QEvent) :
    RelayOutcome × Option ThrownKind :=
  match realRetryLoop cfg available ok frame cfg.maxRetries s sc [] with
  | (s1, sc1, sent, .timedOut) => (⟨s1, sent, [], sc1⟩, some .queueTimeout)
  | (s1, sc1, sent, .noAttempt) => (⟨s1, sent, [], sc1⟩, some .undefinedHeader)
  | (s1, sc1, sent, .got m failed) =>
    if m.isErrorEvent || failed then
      let finalError := parseAndCorrectErrorDetails m.toErrorDetails
      (⟨s1, sent,
        [.errorResponse (statusOr500 finalError.status) (msgStr finalError.message)], sc1⟩, none)
    else
      let s2 := { s1 with failureCount := 0 }
      let r := realChunkLoop sc1
      (⟨s2, sent,
        ClientWrite.respHeaders (statusOr200 m.statusField) :: r.1 ++ [ClientWrite.endStream],
        r.2⟩, none)

/-- Function `processRequest` (lines 588-607) around the real-stream path: an
exception from the handler reaches the catch and becomes a single error
response via `_handleRequestError` (headers were not sent yet on these
paths). -/
def processRequestReal (cfg : Config) (available : List Nat) (ok : Nat → Bool)
    (frame : RelayFrame) (s : HandlerState) (sc : List QEvent) : RelayOutcome :=
  match handleRealStreamResponse cfg available ok frame s sc with
  | (o, none) => o
  | (o, some k) =>
    { o with writes := o.writes ++
        [.errorResponse (handleRequestErrorStatus (thrownMessage k))
          ("代理错误: " ++ thrownMessage k)] }

/-- Terminal client-visible outcomes: a full (error or JSON) response, the
final in-band failure chunk, or the `[DONE]` sentinel closing a
synthesized stream. -/
def isTerminalWrite : ClientWrite → Bool
  | .errorResponse _ _ => true
  | .jsonResponse _ => true
  | .finalErrorChunk _ _ => true
  | .doneEvent => true
  | _ => false

def countTerminal (ws : List ClientWrite) : Nat :=
  (ws.filter isTerminalWrite).length

/-! ## Helper lemmas -/

theorem skipWs1_eq_skipWs {rest r2 : List Char} (h : skipWs1 rest = some r2) :
    skipWs rest = r2 := by
  cases rest with
  | nil => simp [skipWs1] at h
  | cons c cs =>
    by_cases hc : isJsSpace c = true
    · simp [skipWs1, hc] at h
      simpa [skipWs, hc] using h
    · simp [skipWs1, hc] at h

/-- A match of the narrow regex at a position is also a match of the
first alternative of the extended regex there, with the same capture. -/
theorem weakMatchAt_imp_strong {cs : List Char} {n : Nat}
    (h : weakMatchAt cs = some n) : strongMatchAt cs = some n := by
  unfold weakMatchAt at h
  unfold strongMatchAt strongBranch1
  cases hs : stripLit "HTTP".data cs <|> stripLit "status code".data cs with
  | none => simp [hs] at h
  | some rest =>
    simp only [hs] at h ⊢
    cases hw : skipWs1 rest with
    | none => simp [hw] at h
    | some r2 =>
      simp only [hw] at h
      rw [skipWs1_eq_skipWs hw, h]

/-- If the extended regex finds no match anywhere, neither does the
narrow one. -/
theorem weakScan_none_of_strongScan_none :
    ∀ {cs : List Char}, strongScan cs = none → weakScan cs = none := by
  intro cs
  induction cs with
  | nil => intro _; rfl
  | cons c cs ih =>
    intro h
    unfold strongScan at h
    unfold weakScan
    cases hm : strongMatchAt (c :: cs) with
    | some k => rw [hm] at h; exact absurd h (by simp)
    | none =>
      rw [hm] at h
      cases hw : weakMatchAt (c :: cs) with
      | some k => rw [weakMatchAt_imp_strong hw] at hm; exact absurd hm (by simp)
      | none => exact ih h

/-! ## C1: status-code correction -/

/-- Claim C1, counterexample.  The claim asserts that an embedded
`"code": NNN` status is used both for the rotation decision and for the
terminal client-visible response.  For the frame
`{status: 500, message: 'Resource exhausted: "code": 429'}` (status
500 ∈ 400-599, embedded code 429 ∈ 400-599) the rotation logic acts on
429 but the client-visible status remains 500: only the narrow
`HTTP/status code` regex — which does not know the `"code"` field —
is applied when building the terminal response. -/
theorem statusCorrection_counterexample :
    rotationDecisionStatus ⟨some 500, some "Resource exhausted: \"code\": 429"⟩ = some 429
    ∧ clientVisibleStatus ⟨some 500, some "Resource exhausted: \"code\": 429"⟩ = some 500
    ∧ clientVisibleStatus ⟨some 500, some "Resource exhausted: \"code\": 429"⟩
        ≠ rotationDecisionStatus ⟨some 500, some "Resource exhausted: \"code\": 429"⟩ := by
  exact ⟨rfl, rfl, by decide⟩

/-- Claim C1, amended.  For every inbound error frame, the status the
rotation/failure-counter logic acts on is the number found by the
extended scan (`HTTP`/`status code` with optional whitespace, or a
`"code": NNN` field) whenever that number lies in 400-599, falling back
to the client-visible status otherwise; the terminal client-visible
status prefers only a number found by the narrow scan (`HTTP`/`status
code` followed by at least one whitespace character); and when the
extended scan finds nothing, the narrow scan finds nothing either, so
the originally reported status is used unchanged for both. -/
theorem statusCorrection_amended (st : Option Int) (m : String) :
    (rotationDecisionStatus ⟨st, some m⟩ =
      (match strongScan m.data with
       | some n => if 400 ≤ n ∧ n ≤ 599 then some (n : Int) else clientVisibleStatus ⟨st, some m⟩
       | none => clientVisibleStatus ⟨st, some m⟩))
    ∧ (clientVisibleStatus ⟨st, some m⟩ =
      (match weakScan m.data with
       | some n => if 400 ≤ n ∧ n ≤ 599 then some (n : Int) else st
       | none => st))
    ∧ (strongScan m.data = none →
        rotationDecisionStatus ⟨st, some m⟩ = st ∧ clientVisibleStatus ⟨st, some m⟩ = st) := by
  have hclient : clientVisibleStatus ⟨st, some m⟩ =
      (match weakScan m.data with
       | some n => if 400 ≤ n ∧ n ≤ 599 then some (n : Int) else st
       | none => st) := by
    unfold clientVisibleStatus parseAndCorrectErrorDetails
    cases hw : weakScan m.data with
    | none => simp [hw]
    | some n =>
      simp only [hw]
      by_cases hr : 400 ≤ n ∧ n ≤ 599 <;> simp [hr]
  have hrot : rotationDecisionStatus ⟨st, some m⟩ =
      (match strongScan m.data with
       | some n => if 400 ≤ n ∧ n ≤ 599 then some (n : Int) else clientVisibleStatus ⟨st, some m⟩
       | none => clientVisibleStatus ⟨st, some m⟩) := by
    unfold rotationDecisionStatus clientVisibleStatus correctErrorDetailsStrong
      parseAndCorrectErrorDetails
    cases hw : weakScan m.data with
    | none =>
      simp only [hw]
      cases hs : strongScan m.data with
      | none => simp
      | some k => simp only []; split <;> simp
    | some n =>
      simp only [hw]
      by_cases hr : 400 ≤ n ∧ n ≤ 599
      · simp only [if_pos hr]
        cases hs : strongScan m.data with
        | none => simp
        | some k => simp only []; split <;> simp
      · simp only [if_neg hr]
        cases hs : strongScan m.data with
        | none => simp
        | some k => simp only []; split <;> simp
  refine ⟨hrot, hclient, ?_⟩
  intro hnone
  have hwn : weakScan m.data = none := weakScan_none_of_strongScan_none hnone
  constructor
  · rw [hrot, hnone, hclient, hwn]
  · rw [hclient, hwn]

/-- Claim C1, witness for `statusCorrection_amended`: at the frame
`{status: 500, message: "no pattern here"}` the extended scan finds
nothing and both effective statuses stay 500. -/
theorem statusCorrection_amended_witness :
    rotationDecisionStatus ⟨some 500, some "no pattern here"⟩ = some 500
    ∧ clientVisibleStatus ⟨some 500, some "no pattern here"⟩ = some 500 :=
  (statusCorrection_amended (some 500) "no pattern here").2.2 rfl

/-! ## C2: the failure counter -/

/-- After any completed `_switchToNextAuth` call the failure counter is
either untouched (skip / error paths) or reset to 0 (successful
activation). -/
theorem switchToNextAuth_failureCount (avail : List Nat) (ok : Nat → Bool) (s : HandlerState) :
    (switchToNextAuth avail ok s).1.failureCount = s.failureCount
    ∨ (switchToNextAuth avail ok s).1.failureCount = 0 := by
  unfold switchToNextAuth rotateBegin rotateComplete
  by_cases hg : s.isAuthSwitching = true
  · simp [hg]
  · simp only [eq_false_of_ne_true hg]
    cases hn : getNextAuthIndex avail s.currentAuthIndex with
    | none => simp
    | some n => cases hok : ok n <;> simp [hok]

/-- Claim C2, counterexample.  The claim asserts the counter is incremented
by one "regardless of the configured threshold value (in particular also
when the threshold is 0)".  With `failureThreshold = 0`, a non-immediate
error with status 500 leaves the counter at its previous value 5: the
source only increments inside `if (this.config.failureThreshold > 0)`
(line 568). -/
theorem failureCounter_threshold_zero_counterexample :
    (handleRequestFailureAndSwitch ⟨3, 2000, 0, []⟩ [1, 2] (fun _ => true)
        ⟨some 500, some "Internal Server Error"⟩ false ⟨5, false, 1⟩).1.failureCount = 5
    ∧ (handleRequestFailureAndSwitch ⟨3, 2000, 0, []⟩ [1, 2] (fun _ => true)
        ⟨some 500, some "Internal Server Error"⟩ false ⟨5, false, 1⟩).1.failureCount ≠ 5 + 1 := by
  exact ⟨rfl, by decide⟩

/-- Claim C2, amended.  For a failure whose corrected status is not in the
immediate-switch set: when the threshold is positive the counter is
incremented by exactly one (and, if it thereby reaches the threshold, a
rotation is attempted, a successful one resetting the counter to 0);
when the threshold is 0 the handler leaves the counter — and the whole
state — unchanged, counter-based rotation being disabled. -/
theorem failureCounter_amended (cfg : Config) (avail : List Nat) (ok : Nat → Bool)
    (e : ErrorDetails) (hasRes : Bool) (s : HandlerState)
    (hni : optStatusIn cfg.immediateSwitchStatusCodes (correctErrorDetailsStrong e).status = false) :
    (cfg.failureThreshold = 0 →
      handleRequestFailureAndSwitch cfg avail ok e hasRes s = (s, none, []))
    ∧ (0 < cfg.failureThreshold → s.failureCount + 1 < cfg.failureThreshold →
      handleRequestFailureAndSwitch cfg avail ok e hasRes s
        = ({ s with failureCount := s.failureCount + 1 }, none, []))
    ∧ (0 < cfg.failureThreshold → cfg.failureThreshold ≤ s.failureCount + 1 →
      ((handleRequestFailureAndSwitch cfg avail ok e hasRes s).2.1).isSome = true
      ∧ ((handleRequestFailureAndSwitch cfg avail ok e hasRes s).1.failureCount = s.failureCount + 1
         ∨ (handleRequestFailureAndSwitch cfg avail ok e hasRes s).1.failureCount = 0)) := by
  refine ⟨?_, ?_, ?_⟩
  · intro h0
    unfold handleRequestFailureAndSwitch
    simp [hni, h0]
  · intro hpos hlt
    unfold handleRequestFailureAndSwitch
    simp [hni, hpos, Nat.not_le.mpr hlt]
  · intro hpos hle
    have key := switchToNextAuth_failureCount avail ok { s with failureCount := s.failureCount + 1 }
    unfold handleRequestFailureAndSwitch
    simp [hni, hpos, hle]
    simpa using key

/-- Claim C2, witness for `failureCounter_amended`: threshold 7, counter 3,
status 500 not immediate — the counter becomes exactly 4. -/
theorem failureCounter_amended_witness :
    handleRequestFailureAndSwitch ⟨3, 2000, 7, [429]⟩ [1, 2] (fun _ => true)
        ⟨some 500, some "Internal Server Error"⟩ false ⟨3, false, 1⟩
      = (⟨4, false, 1⟩, none, []) :=
  ((failureCounter_amended ⟨3, 2000, 7, [429]⟩ [1, 2] (fun _ => true)
      ⟨some 500, some "Internal Server Error"⟩ false ⟨3, false, 1⟩
      (by decide)).2.1 (by decide) (by decide))

/-! ## C3: immediate-switch status codes -/

/-- Claim C3.  When the corrected status of a failure is in the configured
immediate-switch set, `_handleRequestFailureAndSwitch` invokes
`_switchToNextAuth` and returns its post-state directly — the equations
hold for every `failureCount` and every `failureThreshold` (both are
universally quantified and absent from the right-hand sides), so
rotation is triggered on this single failure without the counter having
to reach the threshold.  When the rotation guard is clear, activation
succeeds and the catalog yields a cyclic successor, the active index
actually moves to it. -/
theorem immediateSwitch_bypasses_threshold (cfg : Config) (avail : List Nat) (ok : Nat → Bool)
    (e : ErrorDetails) (hasRes : Bool) (s : HandlerState)
    (him : optStatusIn cfg.immediateSwitchStatusCodes (correctErrorDetailsStrong e).status = true) :
    (handleRequestFailureAndSwitch cfg avail ok e hasRes s).2.1
        = some (switchToNextAuth avail ok s).2
    ∧ (handleRequestFailureAndSwitch cfg avail ok e hasRes s).1
        = (switchToNextAuth avail ok s).1
    ∧ (s.isAuthSwitching = false → ∀ n, getNextAuthIndex avail s.currentAuthIndex = some n →
        ok n = true →
        (handleRequestFailureAndSwitch cfg avail ok e hasRes s).1.currentAuthIndex = n
        ∧ (handleRequestFailureAndSwitch cfg avail ok e hasRes s).1.failureCount = 0) := by
  refine ⟨?_, ?_, ?_⟩
  · unfold handleRequestFailureAndSwitch
    simp [him]
  · unfold handleRequestFailureAndSwitch
    simp [him]
  · intro hflag n hn hok
    unfold handleRequestFailureAndSwitch switchToNextAuth rotateBegin rotateComplete
    simp [him, hflag, hn, hok]

/-- Claim C3, witness: status 429 ∈ `[429]`, `failureCount = 1`,
`failureThreshold = 10`; rotation still happens and moves the active
index from 1 to 2 in the catalog `[1, 2]`. -/
theorem immediateSwitch_bypasses_threshold_witness :
    (handleRequestFailureAndSwitch ⟨3, 2000, 10, [429]⟩ [1, 2] (fun _ => true)
        ⟨some 429, some "Too Many Requests"⟩ false ⟨1, false, 1⟩).1.currentAuthIndex = 2
    ∧ (handleRequestFailureAndSwitch ⟨3, 2000, 10, [429]⟩ [1, 2] (fun _ => true)
        ⟨some 429, some "Too Many Requests"⟩ false ⟨1, false, 1⟩).1.failureCount = 0 :=
  (immediateSwitch_bypasses_threshold ⟨3, 2000, 10, [429]⟩ [1, 2] (fun _ => true)
      ⟨some 429, some "Too Many Requests"⟩ false ⟨1, false, 1⟩ (by decide)).2.2
    rfl 2 (by decide) rfl

/-! ## C4: non-reentrancy of rotation -/

/-- A non-empty catalog always yields a next index. -/
theorem getNextAuthIndex_isSome (avail : List Nat) (c : Nat) (h : avail ≠ []) :
    ∃ n, getNextAuthIndex avail c = some n := by
  cases avail with
  | nil => exact absurd rfl h
  | cons a rest =>
    unfold getNextAuthIndex
    by_cases hl : rest.length = 0
    · exact ⟨a, by simp [hl]⟩
    · simp only [hl, if_false]
      cases hj : jsIndexOf (a :: rest) c with
      | none => exact ⟨a, by simp⟩
      | some i =>
        have hlen : 0 < (a :: rest).length := by simp
        have hmod : (i + 1) % (a :: rest).length < (a :: rest).length := Nat.mod_lt _ hlen
        exact ⟨(a :: rest).get ⟨(i + 1) % (a :: rest).length, hmod⟩,
          by simp [List.get?_eq_get hmod]⟩

/-- Claim C4.  Rotation is non-reentrant: (i) a `_switchToNextAuth` call
that observes `isAuthSwitching = true` returns immediately with the
state unchanged and no activation; (ii) two overlapping calls — the
second arriving while the first awaits `switchAccount` — make exactly
one activation call to the collaborator, and after the first completes
the guard is clear again; (iii) every exit path of a rotation that
actually started (was not skipped) clears `isAuthSwitching` before
returning, on success and on failure alike. -/
theorem rotation_nonreentrant (avail : List Nat) (ok : Nat → Bool) (s : HandlerState) :
    (s.isAuthSwitching = true → rotateBegin avail s = (s, RotateBegin.skipped))
    ∧ (s.isAuthSwitching = false → avail ≠ [] →
        (concurrentRotationActivations avail ok s).1 = 1
        ∧ (concurrentRotationActivations avail ok s).2.isAuthSwitching = false)
    ∧ ((switchToNextAuth avail ok s).2 ≠ SwitchOutcome.skipped →
        (switchToNextAuth avail ok s).1.isAuthSwitching = false) := by
  refine ⟨?_, ?_, ?_⟩
  · intro h
    unfold rotateBegin
    simp [h]
  · intro hf hne
    obtain ⟨n, hn⟩ := getNextAuthIndex_isSome avail s.currentAuthIndex hne
    unfold concurrentRotationActivations rotateBegin rotateComplete
    simp [hf, hn]
    cases hok : ok n <;> simp [hok]
  · unfold switchToNextAuth rotateBegin rotateComplete
    by_cases hf : s.isAuthSwitching = true
    · simp [hf]
    · simp only [eq_false_of_ne_true hf]
      cases hn : getNextAuthIndex avail s.currentAuthIndex with
      | none => simp
      | some n => cases hok : ok n <;> simp [hok]

/-- Claim C4, witness: from an idle state over catalog `[1, 2]`, two
overlapping rotate calls make exactly one activation and leave the guard
clear. -/
theorem rotation_nonreentrant_witness :
    (concurrentRotationActivations [1, 2] (fun _ => true) ⟨0, false, 1⟩).1 = 1
    ∧ (concurrentRotationActivations [1, 2] (fun _ => true) ⟨0, false, 1⟩).2.isAuthSwitching
        = false :=
  (rotation_nonreentrant [1, 2] (fun _ => true) ⟨0, false, 1⟩).2.1 rfl (by decide)

/-! ## C6: choice of the next credential index -/

theorem jsIndexOf_eq_none_of_not_mem {l : List Nat} {c : Nat} (h : c ∉ l) :
    jsIndexOf l c = none := by
  induction l with
  | nil => rfl
  | cons a t ih =>
    have hac : ¬ a = c := fun hh => h (by simp [hh])
    have hct : c ∉ t := fun hm => h (List.mem_cons_of_mem a hm)
    unfold jsIndexOf
    simp [hac, ih hct]

theorem jsIndexOf_of_nodup : ∀ {l : List Nat} {i c : Nat},
    l.Nodup → l.get? i = some c → jsIndexOf l c = some i := by
  intro l
  induction l with
  | nil => intro i c _ h; simp at h
  | cons a t ih =>
    intro i c hnd h
    obtain ⟨hat, htd⟩ := List.nodup_cons.mp hnd
    cases i with
    | zero =>
      simp at h
      unfold jsIndexOf
      simp [h]
    | succ j =>
      have ht : t.get? j = some c := by simpa using h
      have hc : c ∈ t := List.get?_mem ht
      have hac : ¬ a = c := fun hh => hat (hh ▸ hc)
      unfold jsIndexOf
      simp [hac, ih htd ht]

/-- Claim C6.  `_getNextAuthIndex` picks the cyclic successor of the active
index within the catalog's available indices: (i) an empty catalog gives
`none`, and (ii) a rotation attempted then fails with the explicit
"no credentials available" outcome (`noAuthErr`), not a crash, with the
guard cleared; (iii) a singleton set yields that same member; (iv) an
active index absent from the set falls back to the first available
index; (v) an active index occurring at position `i` (the catalog's
indices are unique, as `_discoverAvailableIndices` deduplicates) yields
the entry at `(i + 1) mod length`; (vi) for a non-empty catalog the
chosen index always exists and belongs to the catalog. -/
theorem nextIndex_cyclic_successor (c a : Nat) (avail rest : List Nat) (i : Nat)
    (ok : Nat → Bool) (s : HandlerState) :
    (getNextAuthIndex [] c = none)
    ∧ (s.isAuthSwitching = false →
        switchToNextAuth [] ok s = ({ s with isAuthSwitching := false }, SwitchOutcome.noAuthErr))
    ∧ (getNextAuthIndex [a] c = some a)
    ∧ (c ∉ (a :: rest) → getNextAuthIndex (a :: rest) c = some a)
    ∧ (avail.Nodup → avail.get? i = some c →
        getNextAuthIndex avail c = avail.get? ((i + 1) % avail.length))
    ∧ (avail ≠ [] → ∃ x, getNextAuthIndex avail c = some x ∧ x ∈ avail) := by
  refine ⟨rfl, ?_, rfl, ?_, ?_, ?_⟩
  · intro hf
    unfold switchToNextAuth rotateBegin
    simp [hf, getNextAuthIndex]
  · intro hnm
    unfold getNextAuthIndex
    by_cases hl : rest.length = 0
    · simp [hl]
    · simp only [hl, if_false]
      rw [jsIndexOf_eq_none_of_not_mem hnm]
  · intro hnd hget
    cases avail with
    | nil => simp at hget
    | cons a2 rest2 =>
      unfold getNextAuthIndex
      by_cases hl : rest2.length = 0
      · have hr2 : rest2 = [] := List.length_eq_zero.mp hl
        subst hr2
        cases i with
        | zero =>
          simp at hget
          simp [hget]
        | succ j => simp at hget
      · simp only [hl, if_false]
        rw [jsIndexOf_of_nodup hnd hget]
  · intro hne
    cases avail with
    | nil => exact absurd rfl hne
    | cons a2 rest2 =>
      unfold getNextAuthIndex
      by_cases hl : rest2.length = 0
      · exact ⟨a2, by simp [hl], by simp⟩
      · simp only [hl, if_false]
        cases hj : jsIndexOf (a2 :: rest2) c with
        | none => exact ⟨a2, rfl, by simp⟩
        | some i2 =>
          have hlen : 0 < (a2 :: rest2).length := by simp
          have hmod : (i2 + 1) % (a2 :: rest2).length < (a2 :: rest2).length := Nat.mod_lt _ hlen
          refine ⟨(a2 :: rest2).get ⟨(i2 + 1) % (a2 :: rest2).length, hmod⟩,
            by simp [List.get?_eq_get hmod], List.get_mem _ _ _⟩

/-- Claim C6, witness: in the catalog `[1, 2, 3]` the successor of the last
index 3 (at position 2) wraps around to position `(2 + 1) % 3 = 0`,
i.e. index 1. -/
theorem nextIndex_cyclic_successor_witness :
    getNextAuthIndex [1, 2, 3] 3 = [1, 2, 3].get? ((2 + 1) % [1, 2, 3].length) :=
  ((nextIndex_cyclic_successor 3 1 [1, 2, 3] [] 2 (fun _ => true) ⟨0, false, 1⟩).2.2.2.2.1
    (by decide) (by decide))

/-! ## C7 and C8: mailbox semantics -/

theorem enqueueAll_open_backlog {α : Type} : ∀ (ms : List α) (b : List α),
    enqueueAll ⟨b, [], false⟩ ms = ⟨b ++ ms, [], false⟩ := by
  intro ms
  induction ms with
  | nil => intro b; simp [enqueueAll]
  | cons m t ih =>
    intro b
    calc enqueueAll (⟨b, [], false⟩ : MessageQueue α) (m :: t)
        = enqueueAll ⟨b ++ [m], [], false⟩ t := rfl
      _ = ⟨(b ++ [m]) ++ t, [], false⟩ := ih (b ++ [m])
      _ = ⟨b ++ m :: t, [], false⟩ := by simp

theorem drainN_backlog {α : Type} : ∀ (ms : List α), drainN ms.length ⟨ms, [], false⟩ = ms := by
  intro ms
  induction ms with
  | nil => rfl
  | cons m t ih => exact congrArg (List.cons m) ih

/-- Claim C7.  `close()` marks the mailbox permanently closed, rejects
exactly the currently parked waiters (in order) and discards the
backlog; on the closed mailbox every `dequeue` fails immediately with
the closed error and leaves the state unchanged, and every `enqueue` is
a silent no-op that also leaves the state unchanged — so the mailbox can
never leave the closed state again. -/
theorem mailbox_close_semantics (q : MessageQueue Msg) (m : Msg) (w : Nat) :
    (q.close.1.closed = true)
    ∧ (q.close.2 = q.waitingResolvers)
    ∧ (q.close.1.messages = [])
    ∧ (q.close.1.dequeue w = (q.close.1, DequeueRes.closedErr))
    ∧ (q.close.1.enqueue m = (q.close.1, EnqueueEffect.dropped)) :=
  ⟨rfl, rfl, rfl, rfl, rfl⟩

/-- Claim C8.  The mailbox is FIFO: on an open mailbox, `enqueue` delivers
directly to the first parked waiter when one exists and otherwise
appends to the backlog; `dequeue` with a non-empty backlog immediately
returns the oldest frame; and a sequence of enqueues into a fresh
mailbox is returned by successive dequeues in exactly enqueue order. -/
theorem mailbox_fifo (q : MessageQueue Msg) (m : Msg) (w : Nat) (rest : List Nat)
    (tail : List Msg) (ms : List Msg) :
    (q.closed = false → q.waitingResolvers = w :: rest →
      q.enqueue m = ({ q with waitingResolvers := rest }, EnqueueEffect.delivered w m))
    ∧ (q.closed = false → q.waitingResolvers = [] →
      q.enqueue m = ({ q with messages := q.messages ++ [m] }, EnqueueEffect.backlogged))
    ∧ (q.closed = false → q.messages = m :: tail →
      q.dequeue w = ({ q with messages := tail }, DequeueRes.value m))
    ∧ (drainN ms.length (enqueueAll MessageQueue.empty ms) = ms) := by
  refine ⟨?_, ?_, ?_, ?_⟩
  · intro hc hw
    unfold MessageQueue.enqueue
    simp [hc, hw]
  · intro hc hw
    unfold MessageQueue.enqueue
    simp [hc, hw]
  · intro hc hm
    unfold MessageQueue.dequeue
    simp [hc, hm]
  · have h1 : enqueueAll (MessageQueue.empty : MessageQueue Msg) ms = ⟨ms, [], false⟩ := by
      simpa using enqueueAll_open_backlog ms []
    rw [h1]
    exact drainN_backlog ms

/-- Claim C8, witness: on the open mailbox with backlog `[chunk "A",
chunk "B"]` a dequeue immediately returns the oldest frame `chunk "A"`,
and enqueuing three frames into a fresh mailbox then dequeuing three
times returns them in enqueue order. -/
theorem mailbox_fifo_witness :
    (MessageQueue.dequeue ⟨[Msg.chunk "A", Msg.chunk "B"], [], false⟩ 0
      = (⟨[Msg.chunk "B"], [], false⟩, DequeueRes.value (Msg.chunk "A")))
    ∧ drainN ([Msg.chunk "A", Msg.chunk "B", Msg.streamEnd].length)
        (enqueueAll MessageQueue.empty [Msg.chunk "A", Msg.chunk "B", Msg.streamEnd])
      = [Msg.chunk "A", Msg.chunk "B", Msg.streamEnd] :=
  ⟨(mailbox_fifo ⟨[Msg.chunk "A", Msg.chunk "B"], [], false⟩ (Msg.chunk "A") 0 []
      [Msg.chunk "B"] []).2.2.1 rfl rfl,
    (mailbox_fifo MessageQueue.empty (Msg.chunk "A") 0 [] []
      [Msg.chunk "A", Msg.chunk "B", Msg.streamEnd]).2.2.2⟩

/-! ## Write-trace helper lemmas for the orchestrators -/


theorem handleFailure_writes_nil (cfg : Config) (avail : List Nat) (ok : Nat → Bool)
    (e : ErrorDetails) (s : HandlerState) :
    (handleRequestFailureAndSwitch cfg avail ok e false s).2.2 = [] := by
  unfold handleRequestFailureAndSwitch
  by_cases him : optStatusIn cfg.immediateSwitchStatusCodes (correctErrorDetailsStrong e).status = true
  · simp [him, switchChunks]
  · simp only [him, if_false]
    by_cases hpos : 0 < cfg.failureThreshold
    · by_cases hle : cfg.failureThreshold ≤ s.failureCount + 1
      · simp [hpos, hle, switchChunks]
      · simp [hpos, hle]
    · simp [hpos]

theorem countTerminal_append (xs ys : List ClientWrite) :
    countTerminal (xs ++ ys) = countTerminal xs + countTerminal ys := by
  unfold countTerminal
  simp [List.filter_append]

theorem countTerminal_switchChunks (hasRes : Bool) (idx : Nat) (r : SwitchOutcome) :
    countTerminal (switchChunks hasRes idx r) = 0 := by
  unfold switchChunks
  cases hasRes
  · simp [countTerminal]
  · cases r <;> simp [countTerminal, isTerminalWrite]

theorem countTerminal_handleFailure (cfg : Config) (avail : List Nat) (ok : Nat → Bool)
    (e : ErrorDetails) (hasRes : Bool) (s : HandlerState) :
    countTerminal (handleRequestFailureAndSwitch cfg avail ok e hasRes s).2.2 = 0 := by
  unfold handleRequestFailureAndSwitch
  by_cases him : optStatusIn cfg.immediateSwitchStatusCodes (correctErrorDetailsStrong e).status = true
  · simp only [him, if_true]
    rw [countTerminal_append, countTerminal_switchChunks]
    cases hasRes <;> simp [countTerminal, isTerminalWrite]
  · simp only [him, if_false]
    by_cases hpos : 0 < cfg.failureThreshold
    · by_cases hle : cfg.failureThreshold ≤ s.failureCount + 1
      · simp only [him, Bool.false_eq_true, if_false, hpos, hle, if_true]
        rw [countTerminal_append, countTerminal_switchChunks]
        cases hasRes <;> simp [countTerminal, isTerminalWrite]
      · simp [hpos, hle, countTerminal]
    · simp [hpos, countTerminal]

theorem pseudoRetryLoop_writes_extend (cfg : Config) (avail : List Nat) (ok : Nat → Bool)
    (f : RelayFrame) (b : Bool) :
    ∀ (fuel : Nat) (s : HandlerState) (sc : List QEvent) (sent : List RelayFrame)
      (ws : List ClientWrite),
      ∃ t, (pseudoRetryLoop cfg avail ok f b fuel s sc sent ws).2.2.2.1 = ws ++ t := by
  intro fuel
  induction fuel with
  | zero => intro s sc sent ws; exact ⟨[], by simp [pseudoRetryLoop]⟩
  | succ n ih =>
    intro s sc sent ws
    cases sc with
    | nil => exact ⟨[], by simp [pseudoRetryLoop]⟩
    | cons ev rest =>
      cases ev with
      | timeout => exact ⟨[], by simp [pseudoRetryLoop]⟩
      | msg m =>
        simp only [pseudoRetryLoop]
        by_cases hr : m.isRetriableError = true
        · simp only [hr, if_true]
          by_cases hn : 0 < n
          · simp only [if_pos hn]
            obtain ⟨t, ht⟩ := ih _ rest _ _
            exact ⟨_, by rw [ht, List.append_assoc, List.append_assoc]⟩
          · simp only [if_neg hn]
            exact ⟨_, List.append_assoc ws _ _⟩
        · simp only [if_neg hr]
          exact ⟨[], by simp⟩

theorem pseudoRetryLoop_countTerminal (cfg : Config) (avail : List Nat) (ok : Nat → Bool)
    (f : RelayFrame) (b : Bool) :
    ∀ (fuel : Nat) (s : HandlerState) (sc : List QEvent) (sent : List RelayFrame)
      (ws : List ClientWrite),
      countTerminal ((pseudoRetryLoop cfg avail ok f b fuel s sc sent ws).2.2.2.1)
        = countTerminal ws := by
  intro fuel
  induction fuel with
  | zero => intro s sc sent ws; simp [pseudoRetryLoop]
  | succ n ih =>
    intro s sc sent ws
    cases sc with
    | nil => simp [pseudoRetryLoop]
    | cons ev rest =>
      cases ev with
      | timeout => simp [pseudoRetryLoop]
      | msg m =>
        simp only [pseudoRetryLoop]
        by_cases hr : m.isRetriableError = true
        · simp only [hr, if_true]
          by_cases hn : 0 < n
          · simp only [if_pos hn]
            rw [ih]
            rw [countTerminal_append, countTerminal_append, countTerminal_handleFailure]
            cases b <;> simp [countTerminal, isTerminalWrite]
          · simp only [if_neg hn]
            rw [countTerminal_append, countTerminal_append, countTerminal_handleFailure]
            cases b <;> simp [countTerminal, isTerminalWrite]
        · simp only [if_neg hr]

theorem pseudoRetryLoop_false_writes (cfg : Config) (avail : List Nat) (ok : Nat → Bool)
    (f : RelayFrame) :
    ∀ (fuel : Nat) (s : HandlerState) (sc : List QEvent) (sent : List RelayFrame)
      (ws : List ClientWrite),
      (pseudoRetryLoop cfg avail ok f false fuel s sc sent ws).2.2.2.1 = ws := by
  intro fuel
  induction fuel with
  | zero => intro s sc sent ws; simp [pseudoRetryLoop]
  | succ n ih =>
    intro s sc sent ws
    cases sc with
    | nil => simp [pseudoRetryLoop]
    | cons ev rest =>
      cases ev with
      | timeout => simp [pseudoRetryLoop]
      | msg m =>
        simp only [pseudoRetryLoop]
        by_cases hr : m.isRetriableError = true
        · simp only [hr, if_true]
          by_cases hn : 0 < n
          · simp only [if_pos hn]
            rw [ih]
            simp [handleFailure_writes_nil]
          · simp only [if_neg hn]
            simp [handleFailure_writes_nil]
        · simp only [if_neg hr]

/-! ## C5: retry exhaustion -/

/-- Claim C5.  With `maxRetries = 3` and every attempt answered by an
`error{status: 500}` frame, in all three modes (real streaming,
synthesized non-stream, synthesized stream) the peer receives exactly
three relay frames — the identical `proxyRequest` built once per inbound
request, hence all sharing its correlation id — and the client receives
exactly one terminal outcome: a single full error response carrying the
weak-corrected status of the final error when headers were not yet sent
(real mode and non-stream synthesized mode), or a single terminal
in-band error chunk followed by the stream end in stream-request
synthesized mode, where `countTerminal = 1` states that no other
client-visible write is terminal.  The trailing script `extra` is left
unconsumed in every mode. -/

theorem retryExhaustion_three_forwards_one_terminal (rd ft : Nat) (codes : List Int)
    (avail : List Nat) (ok : Nat → Bool) (f : RelayFrame) (s : HandlerState)
    (jsonOk : String → Bool) (m1 m2 m3 : String) (extra : List QEvent) :
    ((processRequestReal ⟨3, rd, ft, codes⟩ avail ok f s
        ([QEvent.msg (Msg.error (some 500) (some m1)), QEvent.msg (Msg.error (some 500) (some m2)),
          QEvent.msg (Msg.error (some 500) (some m3))] ++ extra)).sent = [f, f, f]
      ∧ (processRequestReal ⟨3, rd, ft, codes⟩ avail ok f s
        ([QEvent.msg (Msg.error (some 500) (some m1)), QEvent.msg (Msg.error (some 500) (some m2)),
          QEvent.msg (Msg.error (some 500) (some m3))] ++ extra)).writes
        = [ClientWrite.errorResponse
            (statusOr500 (parseAndCorrectErrorDetails ⟨some 500, some m3⟩).status)
            (msgStr (parseAndCorrectErrorDetails ⟨some 500, some m3⟩).message)]
      ∧ (processRequestReal ⟨3, rd, ft, codes⟩ avail ok f s
        ([QEvent.msg (Msg.error (some 500) (some m1)), QEvent.msg (Msg.error (some 500) (some m2)),
          QEvent.msg (Msg.error (some 500) (some m3))] ++ extra)).rest = extra)
    ∧ ((handlePseudoStreamResponse ⟨3, rd, ft, codes⟩ avail ok f false jsonOk s
        ([QEvent.msg (Msg.error (some 500) (some m1)), QEvent.msg (Msg.error (some 500) (some m2)),
          QEvent.msg (Msg.error (some 500) (some m3))] ++ extra)).sent = [f, f, f]
      ∧ (handlePseudoStreamResponse ⟨3, rd, ft, codes⟩ avail ok f false jsonOk s
        ([QEvent.msg (Msg.error (some 500) (some m1)), QEvent.msg (Msg.error (some 500) (some m2)),
          QEvent.msg (Msg.error (some 500) (some m3))] ++ extra)).writes
        = [ClientWrite.errorResponse
            (statusOr500 (parseAndCorrectErrorDetails ⟨some 500, some m3⟩).status)
            ("请求失败: " ++ msgStr (parseAndCorrectErrorDetails ⟨some 500, some m3⟩).message)]
      ∧ (handlePseudoStreamResponse ⟨3, rd, ft, codes⟩ avail ok f false jsonOk s
        ([QEvent.msg (Msg.error (some 500) (some m1)), QEvent.msg (Msg.error (some 500) (some m2)),
          QEvent.msg (Msg.error (some 500) (some m3))] ++ extra)).rest = extra)
    ∧ ((handlePseudoStreamResponse ⟨3, rd, ft, codes⟩ avail ok f true jsonOk s
        ([QEvent.msg (Msg.error (some 500) (some m1)), QEvent.msg (Msg.error (some 500) (some m2)),
          QEvent.msg (Msg.error (some 500) (some m3))] ++ extra)).sent = [f, f, f]
      ∧ countTerminal (handlePseudoStreamResponse ⟨3, rd, ft, codes⟩ avail ok f true jsonOk s
        ([QEvent.msg (Msg.error (some 500) (some m1)), QEvent.msg (Msg.error (some 500) (some m2)),
          QEvent.msg (Msg.error (some 500) (some m3))] ++ extra)).writes = 1
      ∧ ClientWrite.finalErrorChunk (parseAndCorrectErrorDetails ⟨some 500, some m3⟩).status
            (msgStr (parseAndCorrectErrorDetails ⟨some 500, some m3⟩).message)
          ∈ (handlePseudoStreamResponse ⟨3, rd, ft, codes⟩ avail ok f true jsonOk s
        ([QEvent.msg (Msg.error (some 500) (some m1)), QEvent.msg (Msg.error (some 500) (some m2)),
          QEvent.msg (Msg.error (some 500) (some m3))] ++ extra)).writes
      ∧ (handlePseudoStreamResponse ⟨3, rd, ft, codes⟩ avail ok f true jsonOk s
        ([QEvent.msg (Msg.error (some 500) (some m1)), QEvent.msg (Msg.error (some 500) (some m2)),
          QEvent.msg (Msg.error (some 500) (some m3))] ++ extra)).writes.head?
          = some ClientWrite.sseHeaders
      ∧ (handlePseudoStreamResponse ⟨3, rd, ft, codes⟩ avail ok f true jsonOk s
        ([QEvent.msg (Msg.error (some 500) (some m1)), QEvent.msg (Msg.error (some 500) (some m2)),
          QEvent.msg (Msg.error (some 500) (some m3))] ++ extra)).writes.getLast?
          = some ClientWrite.endStream
      ∧ (handlePseudoStreamResponse ⟨3, rd, ft, codes⟩ avail ok f true jsonOk s
        ([QEvent.msg (Msg.error (some 500) (some m1)), QEvent.msg (Msg.error (some 500) (some m2)),
          QEvent.msg (Msg.error (some 500) (some m3))] ++ extra)).rest = extra) := by
  refine ⟨⟨rfl, rfl, rfl⟩, ⟨rfl, ?_, rfl⟩, ⟨rfl, ?_, ?_, ?_, ?_, rfl⟩⟩
  · have h2 : (handlePseudoStreamResponse ⟨3, rd, ft, codes⟩ avail ok f false jsonOk s
        ([QEvent.msg (Msg.error (some 500) (some m1)), QEvent.msg (Msg.error (some 500) (some m2)),
          QEvent.msg (Msg.error (some 500) (some m3))] ++ extra)).writes
        = (pseudoRetryLoop ⟨3, rd, ft, codes⟩ avail ok f false 3 s
            ([QEvent.msg (Msg.error (some 500) (some m1)), QEvent.msg (Msg.error (some 500) (some m2)),
              QEvent.msg (Msg.error (some 500) (some m3))] ++ extra) [] []).2.2.2.1
          ++ [ClientWrite.errorResponse
              (statusOr500 (parseAndCorrectErrorDetails ⟨some 500, some m3⟩).status)
              ("请求失败: " ++ msgStr (parseAndCorrectErrorDetails ⟨some 500, some m3⟩).message)] := rfl
    rw [pseudoRetryLoop_false_writes] at h2
    simpa using h2
  · have h3 : (handlePseudoStreamResponse ⟨3, rd, ft, codes⟩ avail ok f true jsonOk s
        ([QEvent.msg (Msg.error (some 500) (some m1)), QEvent.msg (Msg.error (some 500) (some m2)),
          QEvent.msg (Msg.error (some 500) (some m3))] ++ extra)).writes
        = (pseudoRetryLoop ⟨3, rd, ft, codes⟩ avail ok f true 3 s
            ([QEvent.msg (Msg.error (some 500) (some m1)), QEvent.msg (Msg.error (some 500) (some m2)),
              QEvent.msg (Msg.error (some 500) (some m3))] ++ extra) [] [ClientWrite.sseHeaders]).2.2.2.1
          ++ [ClientWrite.finalErrorChunk (parseAndCorrectErrorDetails ⟨some 500, some m3⟩).status
              (msgStr (parseAndCorrectErrorDetails ⟨some 500, some m3⟩).message),
            ClientWrite.endStream] := rfl
    rw [h3, countTerminal_append, pseudoRetryLoop_countTerminal]
    simp [countTerminal, isTerminalWrite]
  · have h3 : (handlePseudoStreamResponse ⟨3, rd, ft, codes⟩ avail ok f true jsonOk s
        ([QEvent.msg (Msg.error (some 500) (some m1)), QEvent.msg (Msg.error (some 500) (some m2)),
          QEvent.msg (Msg.error (some 500) (some m3))] ++ extra)).writes
        = (pseudoRetryLoop ⟨3, rd, ft, codes⟩ avail ok f true 3 s
            ([QEvent.msg (Msg.error (some 500) (some m1)), QEvent.msg (Msg.error (some 500) (some m2)),
              QEvent.msg (Msg.error (some 500) (some m3))] ++ extra) [] [ClientWrite.sseHeaders]).2.2.2.1
          ++ [ClientWrite.finalErrorChunk (parseAndCorrectErrorDetails ⟨some 500, some m3⟩).status
              (msgStr (parseAndCorrectErrorDetails ⟨some 500, some m3⟩).message),
            ClientWrite.endStream] := rfl
    rw [h3]
    exact List.mem_append_right _ (by simp)
  · obtain ⟨t, ht⟩ := pseudoRetryLoop_writes_extend ⟨3, rd, ft, codes⟩ avail ok f true 3 s
        ([QEvent.msg (Msg.error (some 500) (some m1)), QEvent.msg (Msg.error (some 500) (some m2)),
          QEvent.msg (Msg.error (some 500) (some m3))] ++ extra) [] [ClientWrite.sseHeaders]
    have h3 : (handlePseudoStreamResponse ⟨3, rd, ft, codes⟩ avail ok f true jsonOk s
        ([QEvent.msg (Msg.error (some 500) (some m1)), QEvent.msg (Msg.error (some 500) (some m2)),
          QEvent.msg (Msg.error (some 500) (some m3))] ++ extra)).writes
        = (pseudoRetryLoop ⟨3, rd, ft, codes⟩ avail ok f true 3 s
            ([QEvent.msg (Msg.error (some 500) (some m1)), QEvent.msg (Msg.error (some 500) (some m2)),
              QEvent.msg (Msg.error (some 500) (some m3))] ++ extra) [] [ClientWrite.sseHeaders]).2.2.2.1
          ++ [ClientWrite.finalErrorChunk (parseAndCorrectErrorDetails ⟨some 500, some m3⟩).status
              (msgStr (parseAndCorrectErrorDetails ⟨some 500, some m3⟩).message),
            ClientWrite.endStream] := rfl
    rw [h3, ht]
    simp
  · have h3 : (handlePseudoStreamResponse ⟨3, rd, ft, codes⟩ avail ok f true jsonOk s
        ([QEvent.msg (Msg.error (some 500) (some m1)), QEvent.msg (Msg.error (some 500) (some m2)),
          QEvent.msg (Msg.error (some 500) (some m3))] ++ extra)).writes
        = (pseudoRetryLoop ⟨3, rd, ft, codes⟩ avail ok f true 3 s
            ([QEvent.msg (Msg.error (some 500) (some m1)), QEvent.msg (Msg.error (some 500) (some m2)),
              QEvent.msg (Msg.error (some 500) (some m3))] ++ extra) [] [ClientWrite.sseHeaders]).2.2.2.1
          ++ [ClientWrite.finalErrorChunk (parseAndCorrectErrorDetails ⟨some 500, some m3⟩).status
              (msgStr (parseAndCorrectErrorDetails ⟨some 500, some m3⟩).message),
            ClientWrite.endStream] := rfl
    rw [h3]
    rw [show ∀ (l : List ClientWrite) a b, l ++ [a, b] = (l ++ [a]) ++ [b] from
      fun l a b => by simp]
    exact List.getLast?_concat _

/-! ## C9: mailbox timeouts by phase -/

/-- Claim C9.  A `Queue timeout` during the real-streaming chunk-read loop
is treated as a normal end of stream: the response written so far (here
one chunk `d`) is ended cleanly with no error write.  A timeout anywhere
else is a hard failure surfaced as an error outcome: while waiting for
the first frame in real mode and in non-stream synthesized mode it
becomes a single full error response with status 500 (`Queue timeout`
contains no `超时`, so `_handleRequestError` picks 500), and in
stream-request synthesized mode — whether the timeout hits the retry
phase or the data/end dequeues after a successful first frame — it
becomes an in-band failure chunk before the stream is closed. -/

theorem timeout_semantics_by_phase (k rd ft : Nat) (codes : List Int) (avail : List Nat) (ok : Nat → Bool)
    (f : RelayFrame) (s : HandlerState) (jsonOk : String → Bool)
    (st : Option Int) (d c0 : String) (extra : List QEvent) (hd : ¬ d = "") :
    ((processRequestReal ⟨k + 1, rd, ft, codes⟩ avail ok f s
        ([QEvent.msg (Msg.responseHeaders st), QEvent.msg (Msg.chunk d), QEvent.timeout] ++ extra)).writes
        = [ClientWrite.respHeaders (statusOr200 st), ClientWrite.bodyWrite d, ClientWrite.endStream]
      ∧ (processRequestReal ⟨k + 1, rd, ft, codes⟩ avail ok f s
        ([QEvent.msg (Msg.responseHeaders st), QEvent.msg (Msg.chunk d), QEvent.timeout] ++ extra)).rest
        = extra)
    ∧ ((processRequestReal ⟨k + 1, rd, ft, codes⟩ avail ok f s (QEvent.timeout :: extra)).writes
        = [ClientWrite.errorResponse (handleRequestErrorStatus (thrownMessage ThrownKind.queueTimeout))
            ("代理错误: " ++ thrownMessage ThrownKind.queueTimeout)]
      ∧ handleRequestErrorStatus (thrownMessage ThrownKind.queueTimeout) = 500)
    ∧ ((handlePseudoStreamResponse ⟨k + 1, rd, ft, codes⟩ avail ok f false jsonOk s
          (QEvent.timeout :: extra)).writes
        = [ClientWrite.errorResponse (handleRequestErrorStatus (thrownMessage ThrownKind.queueTimeout))
            ("代理错误: " ++ thrownMessage ThrownKind.queueTimeout)])
    ∧ ((handlePseudoStreamResponse ⟨k + 1, rd, ft, codes⟩ avail ok f true jsonOk s
          (QEvent.timeout :: extra)).writes
        = [ClientWrite.sseHeaders,
            ClientWrite.catchChunk ("处理失败: " ++ thrownMessage ThrownKind.queueTimeout),
            ClientWrite.endStream])
    ∧ ((handlePseudoStreamResponse ⟨k + 1, rd, ft, codes⟩ avail ok f true jsonOk s
          (QEvent.msg (Msg.chunk c0) :: QEvent.timeout :: extra)).writes
        = [ClientWrite.sseHeaders,
            ClientWrite.catchChunk ("处理失败: " ++ thrownMessage ThrownKind.queueTimeout),
            ClientWrite.endStream]
      ∧ (handlePseudoStreamResponse ⟨k + 1, rd, ft, codes⟩ avail ok f true jsonOk s
          (QEvent.msg (Msg.chunk c0) :: QEvent.timeout :: extra)).rest = extra) := by
  refine ⟨⟨?_, ?_⟩, ⟨rfl, rfl⟩, rfl, rfl, ⟨rfl, rfl⟩⟩
  · have h : (processRequestReal ⟨k + 1, rd, ft, codes⟩ avail ok f s
        ([QEvent.msg (Msg.responseHeaders st), QEvent.msg (Msg.chunk d), QEvent.timeout] ++ extra)).writes
        = ClientWrite.respHeaders (statusOr200 st)
            :: (realChunkLoop (QEvent.msg (Msg.chunk d) :: QEvent.timeout :: extra)).1
            ++ [ClientWrite.endStream] := rfl
    rw [h]
    simp [realChunkLoop, Msg.truthyData, Msg.isStreamEnd, hd]
  · have h : (processRequestReal ⟨k + 1, rd, ft, codes⟩ avail ok f s
        ([QEvent.msg (Msg.responseHeaders st), QEvent.msg (Msg.chunk d), QEvent.timeout] ++ extra)).rest
        = (realChunkLoop (QEvent.msg (Msg.chunk d) :: QEvent.timeout :: extra)).2 := rfl
    rw [h]
    simp [realChunkLoop, Msg.truthyData, Msg.isStreamEnd, hd]


/-! ## C10: synthesized-stream success path -/

theorem isRetriableError_eq_false {m : Msg} (h : m.isErrorEvent = false) :
    m.isRetriableError = false := by
  unfold Msg.isRetriableError
  rw [h]
  rfl

/-- Claim C10.  In synthesized streaming mode, once the first dequeued
frame does not signal an HTTP error, the orchestrator dequeues exactly
two further frames — the data frame and the (merely expected)
stream-end frame, `endM` being arbitrary — and consumes nothing else:
the remaining script `extra` is returned untouched for every `extra`.
The client-visible output is built solely from the first data frame's
truthy payload (one `data:` event, or none for an empty/absent payload,
then `[DONE]`, then end — and in the non-stream variant one JSON or
error response from the same payload).  Frames arriving after the
request finishes are lost: `processRequest` closes the mailbox
(`removeMessageQueue`), and enqueue on a closed mailbox leaves it
unchanged. -/
theorem pseudoStream_success_consumes_three (k rd ft : Nat) (codes : List Int)
    (avail : List Nat) (ok : Nat → Bool) (f : RelayFrame) (s : HandlerState)
    (jsonOk : String → Bool) (first dataM endM : Msg) (extra : List QEvent)
    (hfirst : first.isErrorEvent = false) :
    ((handlePseudoStreamResponse ⟨k + 1, rd, ft, codes⟩ avail ok f true jsonOk s
        (QEvent.msg first :: QEvent.msg dataM :: QEvent.msg endM :: extra)).rest = extra
      ∧ (handlePseudoStreamResponse ⟨k + 1, rd, ft, codes⟩ avail ok f true jsonOk s
        (QEvent.msg first :: QEvent.msg dataM :: QEvent.msg endM :: extra)).writes
        = [ClientWrite.sseHeaders]
            ++ (match dataM.truthyData with
                | some d => [ClientWrite.dataEvent d]
                | none => [])
            ++ [ClientWrite.doneEvent, ClientWrite.endStream]
      ∧ (handlePseudoStreamResponse ⟨k + 1, rd, ft, codes⟩ avail ok f true jsonOk s
        (QEvent.msg first :: QEvent.msg dataM :: QEvent.msg endM :: extra)).sent = [f])
    ∧ ((handlePseudoStreamResponse ⟨k + 1, rd, ft, codes⟩ avail ok f false jsonOk s
        (QEvent.msg first :: QEvent.msg dataM :: QEvent.msg endM :: extra)).rest = extra
      ∧ (handlePseudoStreamResponse ⟨k + 1, rd, ft, codes⟩ avail ok f false jsonOk s
        (QEvent.msg first :: QEvent.msg dataM :: QEvent.msg endM :: extra)).writes
        = (match dataM.truthyData with
            | some d =>
              if jsonOk d then [ClientWrite.jsonResponse d]
              else [ClientWrite.errorResponse 500 "代理内部错误：无法解析来自后端的响应。"]
            | none => [ClientWrite.errorResponse 500 "代理内部错误：后端未返回有效数据。"]))
    ∧ (∀ (q : MessageQueue Msg) (c : Msg), ((q.close.1).enqueue c).1 = q.close.1) := by
  have hret := isRetriableError_eq_false hfirst
  refine ⟨⟨?_, ?_, ?_⟩, ⟨?_, ?_⟩, fun q c => rfl⟩ <;>
    · simp only [handlePseudoStreamResponse, pseudoRetryLoop, hret, Bool.false_eq_true, if_false,
        hfirst, Bool.or_self, if_true]
      try (cases hdt : dataM.truthyData <;> simp [hdt] <;> try (split <;> simp_all))

/-- Claim C10, witness: first frame `chunk "ok"`, data frame
`chunk "hello"`, end frame `STREAM_END`, one stray chunk after them:
the stray chunk is not consumed and the body is built from `"hello"`
alone. -/
theorem pseudoStream_success_consumes_three_witness :
    (handlePseudoStreamResponse ⟨3, 2000, 0, []⟩ [1] (fun _ => true) ⟨"rid"⟩ true (fun _ => true)
        ⟨0, false, 1⟩
        (QEvent.msg (Msg.chunk "ok") :: QEvent.msg (Msg.chunk "hello") :: QEvent.msg Msg.streamEnd
          :: [QEvent.msg (Msg.chunk "stray")])).rest = [QEvent.msg (Msg.chunk "stray")] :=
  (pseudoStream_success_consumes_three 2 2000 0 [] [1] (fun _ => true) ⟨"rid"⟩ ⟨0, false, 1⟩
      (fun _ => true) (Msg.chunk "ok") (Msg.chunk "hello") Msg.streamEnd
      [QEvent.msg (Msg.chunk "stray")] rfl).1.1

/-- Claim C9, witness: a concrete real-streaming run — header frame, one
chunk `"A"`, then a timeout — ends the response cleanly as
`headers, "A", end` with no error write. -/
theorem timeout_semantics_by_phase_witness :
    (processRequestReal ⟨3, 2000, 0, []⟩ [1] (fun _ => true) ⟨"rid"⟩ ⟨0, false, 1⟩
        [QEvent.msg (Msg.responseHeaders (some 200)), QEvent.msg (Msg.chunk "A"), QEvent.timeout]).writes
      = [ClientWrite.respHeaders (statusOr200 (some 200)), ClientWrite.bodyWrite "A",
          ClientWrite.endStream] :=
  (timeout_semantics_by_phase 2 2000 0 [] [1] (fun _ => true) ⟨"rid"⟩ ⟨0, false, 1⟩
      (fun _ => true) (some 200) "A" "x" [] (by decide)).1.1
